import Mathlib

set_option autoImplicit false

/-!
Shallow embedding of the interaction and stereo-camera subsystem of
`bevy_oxr` (files `src/xr_input/interactions.rs` and
`src/xr_input/xr_camera.rs`), together with theorems settling the
specification's claims about it.

The interaction engine (`interactions`, `update_interactable_states`) is
modelled over exact rationals; `f32` arithmetic is modelled by exact
arithmetic.  ECS queries become lists, the event writer becomes an
accumulated list of events, and a `.unwrap()` panic is modelled by
`Except Unit` (`.error ()` is a panic).  The real-valued geometry
(`ray_sphere_intersection`, the projection matrices) is modelled over `ℝ`.
-/

namespace BevyOxr

/-! ## Vectors, quaternions and transforms over `ℚ` (interaction pass) -/

/-- A 3-vector with exact rational coordinates, modelling `bevy::Vec3`. -/
structure Vec3q where
  x : ℚ
  y : ℚ
  z : ℚ
  deriving DecidableEq

/-- glam's `Vec3::distance_squared`: squared euclidean distance. -/
def Vec3q.distance_squared (a b : Vec3q) : ℚ :=
  (a.x - b.x) * (a.x - b.x) + (a.y - b.y) * (a.y - b.y) + (a.z - b.z) * (a.z - b.z)

/-- A quaternion with rational components, modelling `bevy::Quat`. -/
structure Quatq where
  x : ℚ
  y : ℚ
  z : ℚ
  w : ℚ
  deriving DecidableEq

/-- A `bevy::Transform`: translation, rotation and scale. -/
structure TransformQ where
  translation : Vec3q
  rotation : Quatq
  scale : Vec3q
  deriving DecidableEq

/-- The `Transform` produced by `Transform::default()`. -/
def TransformQ.default : TransformQ :=
  { translation := ⟨0, 0, 0⟩, rotation := ⟨0, 0, 0, 1⟩, scale := ⟨1, 1, 1⟩ }

/-! ## Interaction data model (`src/xr_input/interactions.rs`) -/

/-- `XRInteractableState` component: `Idle`, `Hover` or `Select`. -/
inductive XRInteractableState where
  | Idle
  | Hover
  | Select
  deriving DecidableEq

/-- `XRInteractorState` component: `Idle` or `Selecting`. -/
inductive XRInteractorState where
  | Idle
  | Selecting
  deriving DecidableEq

/-- One row of the query over `XRInteractable` entities: global translation,
current state, and the entity id. -/
structure Interactable where
  global_translation : Vec3q
  state : XRInteractableState
  entity : ℕ
  deriving DecidableEq

/-- One row of the query over interactor entities: global translation, state,
entity id, whether the entity has the `XRDirectInteractor` marker, whether it
has the `XRRayInteractor` marker, and its optional `AimPose`. -/
structure Interactor where
  global_translation : Vec3q
  state : XRInteractorState
  entity : ℕ
  direct : Bool
  ray : Bool
  aim : Option TransformQ
  deriving DecidableEq

/-- The `InteractionEvent` sent by the detection pass. -/
structure InteractionEvent where
  interactor : ℕ
  interactable : ℕ
  interactable_state : XRInteractableState
  deriving DecidableEq

/-- `Query::get_single` over the tracking-root query: succeeds exactly when
there is exactly one `OpenXRTrackingRoot` entity.  The `interactions` system
calls `.unwrap()` on this, which panics on `.error`. -/
def get_single (roots : List TransformQ) : Except Unit TransformQ :=
  match roots with
  | [root] => .ok root
  | _ => .error ()

/-- The `let size = 0.1;` constant of the direct-interactor branch. -/
def direct_size : ℚ := 1 / 10

/-- The `let radius: f32 = 0.1;` constant of the ray-interactor branch. -/
def ray_radius : ℚ := 1 / 10

/-- The direct-branch distance test of `interactions`:
`distance_squared < (size * size) * 2.0`. -/
def sphere_overlap (interactor_pos interactable_pos : Vec3q) (size : ℚ) : Bool :=
  Vec3q.distance_squared interactor_pos interactable_pos < size * size * 2

/-- The shared "check for selections first" block of both branches: an `Idle`
interactor records a hover, a `Selecting` interactor sends an
`InteractionEvent` carrying `Select`. -/
def check_selection (interactor_state : XRInteractorState)
    (interactor_entity interactable_entity : ℕ) :
    Bool × List InteractionEvent :=
  match interactor_state with
  | .Idle => (true, [])
  | .Selecting =>
    (false, [{ interactor := interactor_entity, interactable := interactable_entity,
               interactable_state := .Select }])

/-- The direct branch of the inner interactor loop: when the entity has the
`XRDirectInteractor` marker, run the sphere-overlap test and the selection
check; otherwise do nothing. -/
def direct_check (interactable : Interactable) (interactor : Interactor) :
    Bool × List InteractionEvent :=
  if interactor.direct then
    if sphere_overlap interactor.global_translation interactable.global_translation
        direct_size then
      check_selection interactor.state interactor.entity interactable.entity
    else (false, [])
  else (false, [])

/-- The body of the inner interactor loop of `interactions` for one
(interactable, interactor) pair: the direct branch runs the sphere-overlap
test, the ray branch first unwraps the tracking root (panicking unless there
is exactly one) and then, when an `AimPose` is present, runs the ray–sphere
test on the world-space aim ray.  `ray_hit root aim center radius` stands for
`ray_sphere_intersection(center, radius, ray_origin, ray_dir.normalize_or_zero())`
with the ray derived from the root transform and the aim pose; the pass is
parametric in it (the real-valued test itself is modelled separately as
`ray_sphere_intersection`).  Returns (hovered contribution, events sent). -/
def process_pair (ray_hit : TransformQ → TransformQ → Vec3q → ℚ → Bool)
    (roots : List TransformQ) (interactable : Interactable) (interactor : Interactor) :
    Except Unit (Bool × List InteractionEvent) := do
  let direct_result := direct_check interactable interactor
  let ray_result ←
    if interactor.ray then do
      let root ← get_single roots
      match interactor.aim with
      | some aim =>
        pure
          (if ray_hit root aim interactable.global_translation ray_radius then
            check_selection interactor.state interactor.entity interactable.entity
          else (false, []))
      | none => pure (false, [])
    else pure (false, [])
  pure (direct_result.1 || ray_result.1, direct_result.2 ++ ray_result.2)

/-- One step of the inner interactor loop: accumulate the `hovered` flag and
the events sent so far. -/
def scan_step (ray_hit : TransformQ → TransformQ → Vec3q → ℚ → Bool)
    (roots : List TransformQ) (interactable : Interactable)
    (acc : Bool × List InteractionEvent) (interactor : Interactor) :
    Except Unit (Bool × List InteractionEvent) := do
  let r ← process_pair ray_hit roots interactable interactor
  pure (acc.1 || r.1, acc.2 ++ r.2)

/-- The body of the outer interactable loop of `interactions`: scan every
interactor accumulating the `hovered` flag and the sent events, then
unconditionally write the interactable's state to `Hover` or `Idle`. -/
def process_interactable (ray_hit : TransformQ → TransformQ → Vec3q → ℚ → Bool)
    (roots : List TransformQ) (interactors : List Interactor)
    (interactable : Interactable) :
    Except Unit (Interactable × List InteractionEvent) := do
  let scan ← interactors.foldlM (scan_step ray_hit roots interactable) (false, [])
  pure ({ interactable with state := if scan.1 then .Hover else .Idle }, scan.2)

/-- One step of the outer interactable loop: record the rewritten
interactable and the events it sent. -/
def pass_step (ray_hit : TransformQ → TransformQ → Vec3q → ℚ → Bool)
    (roots : List TransformQ) (interactors : List Interactor)
    (acc : List Interactable × List InteractionEvent) (interactable : Interactable) :
    Except Unit (List Interactable × List InteractionEvent) := do
  let r ← process_interactable ray_hit roots interactors interactable
  pure (acc.1 ++ [r.1], acc.2 ++ r.2)

/-- The detection pass (`interactions` system): iterate over all
interactables, returning their rewritten states and the full list of sent
`InteractionEvent`s, or `.error ()` when the pass panics. -/
def interactions (ray_hit : TransformQ → TransformQ → Vec3q → ℚ → Bool)
    (roots : List TransformQ) (interactables : List Interactable)
    (interactors : List Interactor) :
    Except Unit (List Interactable × List InteractionEvent) :=
  interactables.foldlM (pass_step ray_hit roots interactors) ([], [])

/-- The commit pass (`update_interactable_states` system): for each event in
order, overwrite the state of the referenced interactable when it still
exists; events referencing absent entities are dropped. -/
def update_interactable_states (events : List InteractionEvent)
    (interactables : List Interactable) : List Interactable :=
  events.foldl
    (fun acc event =>
      acc.map fun interactable =>
        if interactable.entity = event.interactable then
          { interactable with state := event.interactable_state }
        else interactable)
    interactables

/-- One frame of the two-pass protocol: the detection pass followed by the
commit pass consuming the events the detection pass sent. -/
def detect_then_commit (ray_hit : TransformQ → TransformQ → Vec3q → ℚ → Bool)
    (roots : List TransformQ) (interactables : List Interactable)
    (interactors : List Interactor) :
    Except Unit (List Interactable × List InteractionEvent) := do
  let r ← interactions ray_hit roots interactables interactors
  pure (update_interactable_states r.2 r.1, r.2)

/-! ## Basic lemmas about the `Except Unit` panic monad and the passes -/

theorem ok_bind {α β : Type} (a : α) (f : α → Except Unit β) :
    (Except.ok a >>= f : Except Unit β) = f a := rfl

theorem error_bind {α β : Type} (f : α → Except Unit β) :
    ((Except.error () : Except Unit α) >>= f) = .error () := rfl

theorem pure_eq_ok {α : Type} (a : α) : (pure a : Except Unit α) = .ok a := rfl

theorem get_single_error (roots : List TransformQ) (h : roots.length ≠ 1) :
    get_single roots = .error () := by
  match roots with
  | [] => rfl
  | [_] => simp at h
  | _ :: _ :: _ => rfl

/-- An interactor without the `XRRayInteractor` marker never touches the
tracking root: its pair step reduces to the direct branch. -/
theorem process_pair_not_ray (ray_hit : TransformQ → TransformQ → Vec3q → ℚ → Bool)
    (roots : List TransformQ) (interactable : Interactable) (interactor : Interactor)
    (h : interactor.ray = false) :
    process_pair ray_hit roots interactable interactor =
      .ok (direct_check interactable interactor) := by
  simp [process_pair, h, ok_bind, pure_eq_ok]

/-- An interactor with the `XRRayInteractor` marker unwraps the tracking-root
query before anything else in its branch, so a missing or duplicated root is
a panic. -/
theorem process_pair_ray_bad_root (ray_hit : TransformQ → TransformQ → Vec3q → ℚ → Bool)
    (roots : List TransformQ) (interactable : Interactable) (interactor : Interactor)
    (h : interactor.ray = true) (hr : roots.length ≠ 1) :
    process_pair ray_hit roots interactable interactor = .error () := by
  simp [process_pair, h, get_single_error roots hr, error_bind]

theorem scan_ok_of_no_ray (ray_hit : TransformQ → TransformQ → Vec3q → ℚ → Bool)
    (roots : List TransformQ) (interactable : Interactable) :
    ∀ (interactors : List Interactor) (acc : Bool × List InteractionEvent),
      (∀ ir ∈ interactors, ir.ray = false) →
      ∃ r, interactors.foldlM (scan_step ray_hit roots interactable) acc = .ok r := by
  intro interactors
  induction interactors with
  | nil => exact fun acc _ => ⟨acc, rfl⟩
  | cons ir rest ih =>
    intro acc h
    rw [List.foldlM_cons, scan_step,
      process_pair_not_ray ray_hit roots interactable ir (h ir (by simp)), ok_bind,
      pure_eq_ok, ok_bind]
    exact ih _ fun i hi => h i (by simp [hi])

theorem scan_error_of_ray_bad_root (ray_hit : TransformQ → TransformQ → Vec3q → ℚ → Bool)
    (roots : List TransformQ) (interactable : Interactable) (hr : roots.length ≠ 1) :
    ∀ (interactors : List Interactor) (acc : Bool × List InteractionEvent),
      (∃ ir ∈ interactors, ir.ray = true) →
      interactors.foldlM (scan_step ray_hit roots interactable) acc = .error () := by
  intro interactors
  induction interactors with
  | nil => rintro acc ⟨ir, hmem, _⟩; cases hmem
  | cons ir rest ih =>
    rintro acc ⟨i, hmem, hray⟩
    rw [List.foldlM_cons]
    rcases List.mem_cons.mp hmem with rfl | htail
    · rw [scan_step, process_pair_ray_bad_root ray_hit roots interactable i hray hr,
        error_bind, error_bind]
    · cases hir : ir.ray with
      | true =>
        rw [scan_step, process_pair_ray_bad_root ray_hit roots interactable ir hir hr,
          error_bind, error_bind]
      | false =>
        rw [scan_step, process_pair_not_ray ray_hit roots interactable ir hir, ok_bind,
          pure_eq_ok, ok_bind]
        exact ih _ ⟨i, htail, hray⟩

theorem process_interactable_ok_of_no_ray
    (ray_hit : TransformQ → TransformQ → Vec3q → ℚ → Bool) (roots : List TransformQ)
    (interactors : List Interactor) (interactable : Interactable)
    (h : ∀ ir ∈ interactors, ir.ray = false) :
    ∃ r, process_interactable ray_hit roots interactors interactable = .ok r := by
  obtain ⟨s, hs⟩ := scan_ok_of_no_ray ray_hit roots interactable interactors (false, []) h
  exact ⟨_, by rw [process_interactable, hs, ok_bind]; exact pure_eq_ok _⟩

theorem process_interactable_error_of_ray_bad_root
    (ray_hit : TransformQ → TransformQ → Vec3q → ℚ → Bool) (roots : List TransformQ)
    (interactors : List Interactor) (interactable : Interactable)
    (hr : roots.length ≠ 1) (h : ∃ ir ∈ interactors, ir.ray = true) :
    process_interactable ray_hit roots interactors interactable = .error () := by
  rw [process_interactable,
    scan_error_of_ray_bad_root ray_hit roots interactable hr interactors (false, []) h,
    error_bind]

theorem interactions_ok_of_no_ray (ray_hit : TransformQ → TransformQ → Vec3q → ℚ → Bool)
    (roots : List TransformQ) (interactors : List Interactor)
    (h : ∀ ir ∈ interactors, ir.ray = false) :
    ∀ (interactables : List Interactable) (acc : List Interactable × List InteractionEvent),
      ∃ r, interactables.foldlM (pass_step ray_hit roots interactors) acc = .ok r := by
  intro interactables
  induction interactables with
  | nil => exact fun acc => ⟨acc, rfl⟩
  | cons it rest ih =>
    intro acc
    obtain ⟨r, hrr⟩ := process_interactable_ok_of_no_ray ray_hit roots interactors it h
    rw [List.foldlM_cons, pass_step, hrr, ok_bind, pure_eq_ok, ok_bind]
    exact ih _

theorem interactions_error_of_ray_bad_root
    (ray_hit : TransformQ → TransformQ → Vec3q → ℚ → Bool) (roots : List TransformQ)
    (interactors : List Interactor) (interactable : Interactable)
    (rest : List Interactable) (hr : roots.length ≠ 1)
    (h : ∃ ir ∈ interactors, ir.ray = true) :
    interactions ray_hit roots (interactable :: rest) interactors = .error () := by
  rw [interactions, List.foldlM_cons, pass_step,
    process_interactable_error_of_ray_bad_root ray_hit roots interactors interactable hr h,
    error_bind, error_bind]

/-! ## Concrete sample entities used in scenario theorems -/

/-- An interactable at the origin (entity id 0) in a given state. -/
def sampleInteractable (s : XRInteractableState) : Interactable :=
  { global_translation := ⟨0, 0, 0⟩, state := s, entity := 0 }

/-- A direct interactor (entity id 1) at distance `0.05` from the origin. -/
def directInteractor (s : XRInteractorState) : Interactor :=
  { global_translation := ⟨1 / 20, 0, 0⟩, state := s, entity := 1,
    direct := true, ray := false, aim := none }

/-- A ray interactor (entity id 1) with a default aim pose. -/
def rayInteractor : Interactor :=
  { global_translation := ⟨0, 0, 0⟩, state := .Idle, entity := 1,
    direct := false, ray := true, aim := some TransformQ.default }

/-! ## Claim C1 -/

/-- C1 (counterexample): the claim says that when the tracking root is absent
the detection pass skips Ray-variant detection with a warning and "completes
without fatal failure".  On the code this is false: `interactions` calls
`tracking_root_query.get_single().unwrap()`, so with zero tracking roots, one
interactable and one Ray-variant interactor the pass panics (modelled as
`.error ()`). -/
theorem interactions_missing_root_cex :
    interactions (fun _ _ _ _ => false) [] [sampleInteractable .Idle] [rayInteractor]
      = .error () := by
  norm_num [interactions, List.foldlM, pass_step, process_interactable, scan_step,
    process_pair, rayInteractor, get_single, ok_bind, error_bind, pure_eq_ok]

/-- C1 (amended): in the detection pass, the tracking root is only consulted
by the Ray-variant branch, which `.unwrap()`s it: if no interactor has the
`XRRayInteractor` marker the pass completes normally whatever the root count,
while if the root is absent or duplicated and some Ray-variant interactor is
scanned against some interactable, the pass panics (it is fatal, not a logged
skip). -/
theorem interactions_missing_root (ray_hit : TransformQ → TransformQ → Vec3q → ℚ → Bool)
    (roots : List TransformQ) (interactables : List Interactable)
    (interactors : List Interactor) :
    ((∀ ir ∈ interactors, ir.ray = false) →
      ∃ r, interactions ray_hit roots interactables interactors = .ok r) ∧
    (roots.length ≠ 1 → interactables ≠ [] → (∃ ir ∈ interactors, ir.ray = true) →
      interactions ray_hit roots interactables interactors = .error ()) := by
  constructor
  · intro h
    exact interactions_ok_of_no_ray ray_hit roots interactors h interactables ([], [])
  · intro hr hne hray
    match interactables with
    | [] => exact absurd rfl hne
    | it :: rest =>
      exact interactions_error_of_ray_bad_root ray_hit roots interactors it rest hr hray

/-- C1 (witness): a Direct-only frame with zero tracking roots completes,
while the same frame with a Ray-variant interactor panics. -/
theorem interactions_missing_root_inst :
    (∃ r, interactions (fun _ _ _ _ => false) [] [sampleInteractable .Idle]
        [directInteractor .Idle] = .ok r) ∧
    interactions (fun _ _ _ _ => false) [] [sampleInteractable .Idle] [rayInteractor]
      = .error () := by
  constructor
  · refine (interactions_missing_root _ _ _ _).1 ?_
    intro ir hmem
    rw [List.mem_singleton.mp hmem]
    rfl
  · refine (interactions_missing_root _ _ _ _).2 (by simp) (by simp) ?_
    exact ⟨rayInteractor, by simp, rfl⟩

/-! ## Claim C5 -/

/-- C5: two-pass protocol on the scenario of one interactable at the origin
and one overlapping Direct interactor at distance `0.05`: an `Idle`
interactor makes the detection pass write `Hover` and send no event; a
`Selecting` interactor makes it send `InteractionEvent(1, 0, Select)` while
writing the state to `Idle`, and the commit pass then overwrites the state to
`Select`; from state `Select`, a following detection pass with the interactor
back to `Idle` writes `Hover` again (and has no event pending). -/
theorem two_pass_scenario (ray_hit : TransformQ → TransformQ → Vec3q → ℚ → Bool) :
    interactions ray_hit [] [sampleInteractable .Idle] [directInteractor .Idle]
      = .ok ([sampleInteractable .Hover], []) ∧
    interactions ray_hit [] [sampleInteractable .Idle] [directInteractor .Selecting]
      = .ok ([sampleInteractable .Idle],
          [{ interactor := 1, interactable := 0, interactable_state := .Select }]) ∧
    update_interactable_states
        [{ interactor := 1, interactable := 0, interactable_state := .Select }]
        [sampleInteractable .Idle]
      = [sampleInteractable .Select] ∧
    detect_then_commit ray_hit [] [sampleInteractable .Idle] [directInteractor .Selecting]
      = .ok ([sampleInteractable .Select],
          [{ interactor := 1, interactable := 0, interactable_state := .Select }]) ∧
    interactions ray_hit [] [sampleInteractable .Select] [directInteractor .Idle]
      = .ok ([sampleInteractable .Hover], []) := by
  refine ⟨?_, ?_, ?_, ?_, ?_⟩ <;>
    norm_num [interactions, detect_then_commit, update_interactable_states, List.foldlM,
      pass_step, process_interactable, scan_step, process_pair, direct_check,
      sphere_overlap, check_selection, Vec3q.distance_squared, direct_size,
      sampleInteractable, directInteractor, ok_bind, error_bind, pure_eq_ok]

/-- C5 (witness): the scenario instantiated at a concrete ray–sphere test
(irrelevant here, no interactor has the ray marker). -/
theorem two_pass_scenario_inst :
    interactions (fun _ _ _ _ => false) [] [sampleInteractable .Idle]
        [directInteractor .Idle] = .ok ([sampleInteractable .Hover], []) ∧
    detect_then_commit (fun _ _ _ _ => false) [] [sampleInteractable .Idle]
        [directInteractor .Selecting]
      = .ok ([sampleInteractable .Select],
          [{ interactor := 1, interactable := 0, interactable_state := .Select }]) :=
  ⟨(two_pass_scenario (fun _ _ _ _ => false)).1,
   (two_pass_scenario (fun _ _ _ _ => false)).2.2.2.1⟩

/-! ## Claim C6 -/

/-- C6: the Direct-variant overlap test of the detection pass compares the
squared center distance strictly against `2 * radius²` with `radius = 0.1`:
it reports overlap exactly when `distance² < 2 * radius²`, and reports no
overlap at or beyond that boundary. -/
theorem sphere_overlap_threshold (a b : Vec3q) :
    (sphere_overlap a b direct_size = true ↔
      Vec3q.distance_squared a b < 2 * (direct_size * direct_size)) ∧
    (2 * (direct_size * direct_size) ≤ Vec3q.distance_squared a b →
      sphere_overlap a b direct_size = false) := by
  constructor
  · rw [sphere_overlap, decide_eq_true_eq]
    constructor <;> intro h <;> nlinarith [h]
  · intro h
    rw [sphere_overlap, decide_eq_false_iff_not, not_lt]
    nlinarith [h]

/-- C6 (witness): at squared distance exactly `2 * radius²` (the boundary)
the overlap test reports no overlap. -/
theorem sphere_overlap_threshold_inst :
    2 * (direct_size * direct_size)
        ≤ Vec3q.distance_squared ⟨1 / 10, 1 / 10, 0⟩ ⟨0, 0, 0⟩ ∧
    sphere_overlap ⟨1 / 10, 1 / 10, 0⟩ ⟨0, 0, 0⟩ direct_size = false :=
  ⟨by norm_num [direct_size, Vec3q.distance_squared],
   (sphere_overlap_threshold _ _).2 (by norm_num [direct_size, Vec3q.distance_squared])⟩

/-! ## Real-valued geometry: `ray_sphere_intersection`

The ray–sphere test itself is straight-line `f32` arithmetic with a square
root; it is modelled over `ℝ`. -/

/-- A 3-vector with real coordinates, modelling `bevy::Vec3` where the code's
arithmetic involves square roots or trigonometry. -/
structure V3 where
  x : ℝ
  y : ℝ
  z : ℝ

/-- Componentwise vector difference (`center - ray_origin`). -/
def V3.sub (a b : V3) : V3 :=
  ⟨a.x - b.x, a.y - b.y, a.z - b.z⟩

/-- glam's `Vec3::dot`. -/
def V3.dot (a b : V3) : ℝ :=
  a.x * b.x + a.y * b.y + a.z * b.z

/-- `ray_sphere_intersection(center, radius, ray_origin, ray_dir)` from
`src/xr_input/interactions.rs`: with `l = center - ray_origin`,
`adj = l·ray_dir`, `d2 = l·l - adj²`, `radius2 = radius²`,
`thc = sqrt(radius2 - d2)`, `t0 = adj - thc`, `t1 = adj + thc`, the function
returns `false` when `d2 > radius2`, `false` when `t0 < 0 && t1 < 0`, and
`true` otherwise. -/
def ray_sphere_intersection (center : V3) (radius : ℝ) (ray_origin ray_dir : V3) : Prop :=
  let l := V3.sub center ray_origin
  let adj := V3.dot l ray_dir
  let d2 := V3.dot l l - adj * adj
  let radius2 := radius * radius
  let thc := Real.sqrt (radius2 - d2)
  let t0 := adj - thc
  let t1 := adj + thc
  ¬d2 > radius2 ∧ ¬(t0 < 0 ∧ t1 < 0)

/-! ## Claim C2 -/

/-- C2 (counterexample): the claim says a ray whose origin is the center of
the sphere and whose (unit) direction points away from the sphere returns
`false`.  On the code this is false: with origin at the center, `d2 = 0` and
`t1 = adj + thc = sqrt(radius²) ≥ 0`, so the function returns `true`; here at
center `(0,0,0)`, radius `1`, origin `(0,0,0)` and unit direction `(0,0,1)`. -/
theorem ray_sphere_origin_at_center_cex :
    V3.dot ⟨0, 0, 1⟩ ⟨0, 0, 1⟩ = 1 ∧
    ray_sphere_intersection ⟨0, 0, 0⟩ 1 ⟨0, 0, 0⟩ ⟨0, 0, 1⟩ := by
  refine ⟨by norm_num [V3.dot], ?_, ?_⟩
  · norm_num [V3.dot, V3.sub]
  · norm_num [V3.dot, V3.sub]

/-- C2 (amended): for every center, radius, origin and unit-length direction,
`ray_sphere_intersection` returns `true` iff the squared perpendicular
distance `d2` from the sphere center to the ray line is within `radius²` and
at least one of the two intersection parameters `t0 = adj - thc`,
`t1 = adj + thc` is non-negative; in particular, for a ray whose origin is
the center of the sphere the function returns `true` for every direction
(rather than `false` as claimed). -/
theorem ray_sphere_intersection_iff :
    (∀ (center : V3) (radius : ℝ) (ray_origin ray_dir : V3),
      V3.dot ray_dir ray_dir = 1 →
      (ray_sphere_intersection center radius ray_origin ray_dir ↔
        (V3.dot (V3.sub center ray_origin) (V3.sub center ray_origin) -
            V3.dot (V3.sub center ray_origin) ray_dir *
              V3.dot (V3.sub center ray_origin) ray_dir ≤ radius * radius ∧
          (0 ≤ V3.dot (V3.sub center ray_origin) ray_dir -
              Real.sqrt (radius * radius -
                (V3.dot (V3.sub center ray_origin) (V3.sub center ray_origin) -
                  V3.dot (V3.sub center ray_origin) ray_dir *
                    V3.dot (V3.sub center ray_origin) ray_dir)) ∨
           0 ≤ V3.dot (V3.sub center ray_origin) ray_dir +
              Real.sqrt (radius * radius -
                (V3.dot (V3.sub center ray_origin) (V3.sub center ray_origin) -
                  V3.dot (V3.sub center ray_origin) ray_dir *
                    V3.dot (V3.sub center ray_origin) ray_dir)))))) ∧
    (∀ (center : V3) (radius : ℝ) (ray_dir : V3),
      ray_sphere_intersection center radius center ray_dir) := by
  constructor
  · intro center radius ray_origin ray_dir _
    rw [ray_sphere_intersection]
    simp only [gt_iff_lt, not_lt, not_and_or]
  · intro center radius ray_dir
    rw [ray_sphere_intersection]
    constructor
    · simp only [V3.sub, V3.dot, sub_self, gt_iff_lt, not_lt]
      nlinarith [mul_self_nonneg radius]
    · rintro ⟨-, h1⟩
      have hz : V3.dot (V3.sub center center) ray_dir = 0 := by
        simp [V3.sub, V3.dot]
      rw [hz, zero_add] at h1
      exact absurd h1 (not_lt.mpr (Real.sqrt_nonneg _))

/-- C2 (witness): the equivalence applied at center `(2,0,0)`, radius `1`,
origin `(0,0,0)`, unit direction `(1,0,0)` (a hit: `d2 = 0`, `t1 = 3`), and
the origin-at-center case applied at center `(3,3,3)`, radius `7`. -/
theorem ray_sphere_intersection_iff_inst :
    V3.dot ⟨1, 0, 0⟩ ⟨1, 0, 0⟩ = 1 ∧
    ray_sphere_intersection ⟨2, 0, 0⟩ 1 ⟨0, 0, 0⟩ ⟨1, 0, 0⟩ ∧
    ray_sphere_intersection ⟨3, 3, 3⟩ 7 ⟨3, 3, 3⟩ ⟨1, 0, 0⟩ := by
  refine ⟨by norm_num [V3.dot], ?_, ray_sphere_intersection_iff.2 _ _ _⟩
  refine (ray_sphere_intersection_iff.1 ⟨2, 0, 0⟩ 1 ⟨0, 0, 0⟩ ⟨1, 0, 0⟩
    (by norm_num [V3.dot])).mpr ?_
  norm_num [V3.dot, V3.sub]

/-! ## Claim C4 -/

/-- C4 (counterexample): the claim says the ray–sphere test with a zero
direction returns `false` for every center, radius and origin.  On the code
this is false when the origin is inside the sphere: at center `(0,0,0)`,
radius `0.1`, origin `(0,0,0)` and zero direction the function returns
`true` (`d2 = 0 ≤ radius²` and `t1 = sqrt(radius²) ≥ 0`). -/
theorem ray_sphere_zero_dir_cex :
    ray_sphere_intersection ⟨0, 0, 0⟩ (1 / 10) ⟨0, 0, 0⟩ ⟨0, 0, 0⟩ := by
  rw [ray_sphere_intersection]
  constructor
  · norm_num [V3.dot, V3.sub]
  · norm_num [V3.dot, V3.sub]

/-- C4 (amended): with a zero direction vector, `adj = 0` and
`d2 = ‖center - origin‖²`, so the test returns `false` exactly when the ray
origin lies strictly outside the sphere; when the origin is on or inside the
sphere (squared distance ≤ radius²) it returns `true`. -/
theorem ray_sphere_zero_dir (center : V3) (radius : ℝ) (ray_origin : V3) :
    ray_sphere_intersection center radius ray_origin ⟨0, 0, 0⟩ ↔
      V3.dot (V3.sub center ray_origin) (V3.sub center ray_origin) ≤ radius * radius := by
  rw [ray_sphere_intersection]
  have hadj : V3.dot (V3.sub center ray_origin) ⟨0, 0, 0⟩ = 0 := by
    simp [V3.dot]
  rw [hadj]
  constructor
  · rintro ⟨h, -⟩
    simpa using not_lt.mp h
  · intro h
    refine ⟨by simpa using not_lt.mpr h, ?_⟩
    rintro ⟨-, h1⟩
    rw [zero_add] at h1
    exact absurd h1 (not_lt.mpr (Real.sqrt_nonneg _))

/-- C4 (witness): the zero-direction characterization applied at center
`(1,0,0)`, radius `2`, origin `(0,0,0)` — the origin is inside the sphere, so
the test reports an intersection. -/
theorem ray_sphere_zero_dir_inst :
    ray_sphere_intersection ⟨1, 0, 0⟩ 2 ⟨0, 0, 0⟩ ⟨0, 0, 0⟩ :=
  (ray_sphere_zero_dir ⟨1, 0, 0⟩ 2 ⟨0, 0, 0⟩).mpr (by norm_num [V3.dot, V3.sub])

/-! ## Stereo projection math (`src/xr_input/xr_camera.rs`) -/

/-- openxr's `Fovf`: four signed field-of-view edge angles in radians. -/
structure Fovf where
  angle_left : ℝ
  angle_right : ℝ
  angle_up : ℝ
  angle_down : ℝ

/-- `Fovf::default()`: all angles zero. -/
def Fovf.default : Fovf := ⟨0, 0, 0, 0⟩

/-- The `XRProjection` component: near/far clip distances and the eye's
field of view. -/
structure XRProjection where
  near : ℝ
  far : ℝ
  fov : Fovf

/-- `XRProjection::default()`: `near = 0.1`, `far = 1000.`. -/
noncomputable def XRProjection.default : XRProjection :=
  { near := 0.1, far := 1000, fov := Fovf.default }

/-- A row-indexed 4×4 real matrix; `glam::Mat4` stores columns, so
`cols[c * 4 + r]` of the source is entry `(r, c)` here, and glam's matrix
product is the usual matrix product. -/
abbrev Mat4 :=
  Matrix (Fin 4) (Fin 4) ℝ

/-- The fixed depth-reversal transform of `get_projection_matrix`
(`Mat4::from_cols_array_2d(&[[1,0,0,0], [0,1,0,0], [0,0,-1,0], [0,0,1,1]])`,
written here by rows). -/
noncomputable def z_reversal : Mat4 :=
  !![1, 0, 0, 0;
     0, 1, 0, 0;
     0, 0, -1, 1;
     0, 0, 0, 1]

/-- The infinite-far projection matrix built in the `far_z <= near_z` branch
of `get_projection_matrix`, before the depth reversal is applied (the `cols`
array of the source, written here by rows). -/
noncomputable def infinite_proj_matrix (p : XRProjection) : Mat4 :=
  let tan_angle_left := Real.tan p.fov.angle_left
  let tan_angle_right := Real.tan p.fov.angle_right
  let tan_angle_down := Real.tan p.fov.angle_down
  let tan_angle_up := Real.tan p.fov.angle_up
  let tan_angle_width := tan_angle_right - tan_angle_left
  let tan_angle_height := tan_angle_up - tan_angle_down
  let offset_z : ℝ := 0
  !![2 / tan_angle_width, 0, (tan_angle_right + tan_angle_left) / tan_angle_width, 0;
     0, 2 / tan_angle_height, (tan_angle_up + tan_angle_down) / tan_angle_height, 0;
     0, 0, -1, -(p.near + offset_z);
     0, 0, -1, 0]

/-- `XRProjection::get_projection_matrix` from `src/xr_input/xr_camera.rs`:
note `far_z` is hard-coded to `-1.` ("use infinite proj"; the
`let far_z = self.far;` of the original OpenXR code is commented out),
`is_vulkan_api` is `false` and `offset_z` is `0`. -/
noncomputable def XRProjection.get_projection_matrix (p : XRProjection) : Mat4 :=
  let fov := p.fov
  let is_vulkan_api := false
  let near_z := p.near
  let far_z : ℝ := -1
  let tan_angle_left := Real.tan fov.angle_left
  let tan_angle_right := Real.tan fov.angle_right
  let tan_angle_down := Real.tan fov.angle_down
  let tan_angle_up := Real.tan fov.angle_up
  let tan_angle_width := tan_angle_right - tan_angle_left
  let tan_angle_height :=
    if is_vulkan_api then tan_angle_down - tan_angle_up else tan_angle_up - tan_angle_down
  let offset_z : ℝ := 0
  if far_z ≤ near_z then
    z_reversal *
      !![2 / tan_angle_width, 0, (tan_angle_right + tan_angle_left) / tan_angle_width, 0;
         0, 2 / tan_angle_height, (tan_angle_up + tan_angle_down) / tan_angle_height, 0;
         0, 0, -1, -(near_z + offset_z);
         0, 0, -1, 0]
  else
    !![2 / tan_angle_width, 0, (tan_angle_right + tan_angle_left) / tan_angle_width, 0;
       0, 2 / tan_angle_height, (tan_angle_up + tan_angle_down) / tan_angle_height, 0;
       0, 0, -(far_z + offset_z) / (far_z - near_z),
         -(far_z * (near_z + offset_z)) / (far_z - near_z);
       0, 0, -1, 0]

/-- Whenever `-1 ≤ near`, `get_projection_matrix` takes the `far_z <= near_z`
branch (since `far_z` is hard-coded to `-1`) and returns the depth-reversed
infinite-far matrix. -/
theorem proj_matrix_infinite_of_near (p : XRProjection) (h : (-1 : ℝ) ≤ p.near) :
    p.get_projection_matrix = z_reversal * infinite_proj_matrix p := by
  rw [XRProjection.get_projection_matrix, infinite_proj_matrix]
  simp [h]

/-- Entry `[2][2]` (row 2, column 2) of the returned depth-reversed
infinite-far matrix is `0` for every projection. -/
theorem z_reversal_mul_entry_2_2 (p : XRProjection) :
    (z_reversal * infinite_proj_matrix p) 2 2 = 0 := by
  rw [z_reversal, infinite_proj_matrix]
  simp [Matrix.mul_apply, Fin.sum_univ_four, Matrix.cons_val_zero, Matrix.cons_val_one,
    Matrix.head_cons, Matrix.cons_val_two, Matrix.cons_val_three, Matrix.vecHead,
    Matrix.vecTail]

/-- The symmetric 45° projection of the claims: angles
`(-π/4, π/4, π/4, -π/4)`, `near = 0.1` and the default `far = 1000`. -/
noncomputable def p45 : XRProjection :=
  { near := 0.1, far := 1000,
    fov := { angle_left := -(Real.pi / 4), angle_right := Real.pi / 4,
             angle_up := Real.pi / 4, angle_down := -(Real.pi / 4) } }

/-! ## Claim C3 -/

/-- C3 (counterexample): the claim says that for far > near the standard
finite matrix with `m[2][2] = -(far+offset)/(far-near)` is produced.  On the
code this is false: `far_z` is hard-coded to `-1.`, so for `p45`
(`near = 0.1`, `far = 1000 > near`) entry `[2][2]` of the returned matrix is
`0` (the depth-reversed infinite form) while the claimed finite form would
make it `-(1000+0)/(1000-0.1) ≠ 0`. -/
theorem projection_finite_far_cex :
    p45.far > p45.near ∧
    p45.get_projection_matrix 2 2 = 0 ∧
    -(p45.far + 0) / (p45.far - p45.near) ≠ 0 := by
  refine ⟨by norm_num [p45], ?_, by norm_num [p45]⟩
  rw [proj_matrix_infinite_of_near p45 (by norm_num [p45])]
  exact z_reversal_mul_entry_2_2 p45

/-- C3 (amended): `get_projection_matrix` ignores the stored `far` entirely:
`far_z` is hard-coded to `-1.`, so for every projection with `-1 ≤ near`
(in particular every projection with `0 ≤ near`, whatever its `far`) it
returns the infinite-far matrix composed with the depth-reversal transform;
the finite off-axis branch is unreachable unless `near < -1`. -/
theorem projection_always_infinite (p : XRProjection) (h : (-1 : ℝ) ≤ p.near) :
    p.get_projection_matrix = z_reversal * infinite_proj_matrix p :=
  proj_matrix_infinite_of_near p h

/-- C3 (witness): the infinite form is returned for `p45`, whose `far = 1000`
exceeds its `near = 0.1`. -/
theorem projection_always_infinite_inst :
    (-1 : ℝ) ≤ p45.near ∧ p45.far > p45.near ∧
    p45.get_projection_matrix = z_reversal * infinite_proj_matrix p45 :=
  ⟨by norm_num [p45], by norm_num [p45],
   projection_always_infinite p45 (by norm_num [p45])⟩

/-! ## Claim C7 -/

/-- C7: for fov angles `left = -45°`, `right = 45°`, `up = 45°`,
`down = -45°` and `near = 0.1`, the infinite-far projection matrix before the
depth-reversal transform has entry `[2][2] = -1` and entry `[2][3] = -0.1`,
and the matrix returned by `get_projection_matrix` is that matrix
left-multiplied by the fixed depth-reversal transform. -/
theorem infinite_proj_entries_45 :
    infinite_proj_matrix p45 2 2 = -1 ∧
    infinite_proj_matrix p45 2 3 = -(0.1 : ℝ) ∧
    p45.get_projection_matrix = z_reversal * infinite_proj_matrix p45 := by
  refine ⟨?_, ?_, ?_⟩
  · rw [infinite_proj_matrix]
    simp
  · rw [infinite_proj_matrix]
    norm_num [p45]
  · rw [XRProjection.get_projection_matrix, infinite_proj_matrix]
    norm_num [p45]

/-! ## Claim C8: frustum corners -/

/-- glam's `Vec3A * f32`: componentwise scaling. -/
def V3.scale (v : V3) (s : ℝ) : V3 :=
  ⟨v.x * s, v.y * s, v.z * s⟩

/-- `XRProjection::get_frustum_corners(z_near, z_far)`: the 8 corner points
in the source's order (near plane then far plane, each bottom-right,
top-right, top-left, bottom-left). -/
noncomputable def XRProjection.get_frustum_corners (p : XRProjection)
    (z_near z_far : ℝ) : List V3 :=
  let tan_angle_left := Real.tan p.fov.angle_left
  let tan_angle_right := Real.tan p.fov.angle_right
  let tan_angle_bottom := Real.tan p.fov.angle_down
  let tan_angle_top := Real.tan p.fov.angle_up
  [V3.scale ⟨tan_angle_right, tan_angle_bottom, 1⟩ z_near,
   V3.scale ⟨tan_angle_right, tan_angle_top, 1⟩ z_near,
   V3.scale ⟨tan_angle_left, tan_angle_top, 1⟩ z_near,
   V3.scale ⟨tan_angle_left, tan_angle_bottom, 1⟩ z_near,
   V3.scale ⟨tan_angle_right, tan_angle_bottom, 1⟩ z_far,
   V3.scale ⟨tan_angle_right, tan_angle_top, 1⟩ z_far,
   V3.scale ⟨tan_angle_left, tan_angle_top, 1⟩ z_far,
   V3.scale ⟨tan_angle_left, tan_angle_bottom, 1⟩ z_far]

/-- C8: for every fov and every `z_near`, `z_far`, `get_frustum_corners`
returns exactly 8 points, in the order near-plane bottom-right, top-right,
top-left, bottom-left followed by the same for the far plane, each equal to
`(tan(angle_right or angle_left), tan(angle_up or angle_down), 1)` scaled by
the plane's distance. -/
theorem frustum_corners_shape (p : XRProjection) (z_near z_far : ℝ) :
    p.get_frustum_corners z_near z_far =
      [⟨Real.tan p.fov.angle_right * z_near, Real.tan p.fov.angle_down * z_near, z_near⟩,
       ⟨Real.tan p.fov.angle_right * z_near, Real.tan p.fov.angle_up * z_near, z_near⟩,
       ⟨Real.tan p.fov.angle_left * z_near, Real.tan p.fov.angle_up * z_near, z_near⟩,
       ⟨Real.tan p.fov.angle_left * z_near, Real.tan p.fov.angle_down * z_near, z_near⟩,
       ⟨Real.tan p.fov.angle_right * z_far, Real.tan p.fov.angle_down * z_far, z_far⟩,
       ⟨Real.tan p.fov.angle_right * z_far, Real.tan p.fov.angle_up * z_far, z_far⟩,
       ⟨Real.tan p.fov.angle_left * z_far, Real.tan p.fov.angle_up * z_far, z_far⟩,
       ⟨Real.tan p.fov.angle_left * z_far, Real.tan p.fov.angle_down * z_far, z_far⟩] := by
  rw [XRProjection.get_frustum_corners]
  simp [V3.scale, one_mul]

/-- C8 (witness): the corner list evaluated at `z_near = 1`, `z_far = 10`
(the spec's test vector: near-plane points scaled by 1, far-plane by 10). -/
theorem frustum_corners_shape_inst :
    p45.get_frustum_corners 1 10 =
      [⟨Real.tan p45.fov.angle_right * 1, Real.tan p45.fov.angle_down * 1, 1⟩,
       ⟨Real.tan p45.fov.angle_right * 1, Real.tan p45.fov.angle_up * 1, 1⟩,
       ⟨Real.tan p45.fov.angle_left * 1, Real.tan p45.fov.angle_up * 1, 1⟩,
       ⟨Real.tan p45.fov.angle_left * 1, Real.tan p45.fov.angle_down * 1, 1⟩,
       ⟨Real.tan p45.fov.angle_right * 10, Real.tan p45.fov.angle_down * 10, 10⟩,
       ⟨Real.tan p45.fov.angle_right * 10, Real.tan p45.fov.angle_up * 10, 10⟩,
       ⟨Real.tan p45.fov.angle_left * 10, Real.tan p45.fov.angle_up * 10, 10⟩,
       ⟨Real.tan p45.fov.angle_left * 10, Real.tan p45.fov.angle_down * 10, 10⟩] :=
  frustum_corners_shape p45 1 10

/-! ## Head/camera sync (`xr_camera_head_sync`) -/

/-- A quaternion with real components, modelling `bevy::Quat` in the camera
transform (the sync pass only copies it, no arithmetic). -/
structure QuatR where
  x : ℝ
  y : ℝ
  z : ℝ
  w : ℝ

/-- A `bevy::Transform` for camera entities. -/
structure TransformR where
  translation : V3
  rotation : QuatR
  scale : V3

/-- `Transform::default()`. -/
def TransformR.default : TransformR :=
  { translation := ⟨0, 0, 0⟩, rotation := ⟨0, 0, 0, 1⟩, scale := ⟨1, 1, 1⟩ }

/-- An openxr pose: orientation and position (`pose.orientation.to_quat()`
and `pose.position.to_vec3()` are modelled as the identity). -/
structure Pose where
  orientation : QuatR
  position : V3

/-- One element of the per-frame `XrViews` resource: a tracked pose and
field of view for one eye. -/
structure View where
  pose : Pose
  fov : Fovf

/-- The `Eye` enum: `Left = 0`, `Right = 1`. -/
inductive Eye where
  | Left
  | Right

/-- `eye as usize`: the view-array ordinal of an eye. -/
def Eye.index : Eye → ℕ
  | .Left => 0
  | .Right => 1

/-- The mutable camera state touched by `xr_camera_head_sync`: the camera's
`Transform`, its `XrCamera(eye)` marker and its `XRProjection`. -/
structure XrCameraState where
  transform : TransformR
  eye : Eye
  projection : XRProjection

/-- The camera state spawned by `XrCameraBundle::new(eye)`: default
transform and default projection. -/
noncomputable def xr_camera_bundle_new (eye : Eye) : XrCameraState :=
  { transform := TransformR.default, eye := eye, projection := XRProjection.default }

/-- `xr_camera_head_sync` (used for both the early `PreUpdate` pass and the
late `PostUpdate` pass) applied to one camera: look up
`views.get(camera_type.0 as usize)`; on `None`, `continue` (the camera is
left unchanged); otherwise copy the view's fov into the projection and the
view's pose orientation/position into the transform. -/
def xr_camera_head_sync (views : List View) (cam : XrCameraState) : XrCameraState :=
  match views.get? cam.eye.index with
  | none => cam
  | some view =>
    { cam with
      transform := { cam.transform with
        rotation := view.pose.orientation,
        translation := view.pose.position },
      projection := { cam.projection with fov := view.fov } }

/-! ## Claim C9 -/

/-- C9: in the head-sync pass (early and late are the same system), a camera
whose eye ordinal has no entry in the per-frame view array is skipped — its
transform and projection are left unchanged and nothing fails — while a
camera whose entry is present gets its rotation and translation from the
view's pose and its projection fov from the view's field of view. -/
theorem head_sync_lookup (views : List View) (cam : XrCameraState) :
    (views.get? cam.eye.index = none → xr_camera_head_sync views cam = cam) ∧
    (∀ v, views.get? cam.eye.index = some v →
      (xr_camera_head_sync views cam).transform.rotation = v.pose.orientation ∧
      (xr_camera_head_sync views cam).transform.translation = v.pose.position ∧
      (xr_camera_head_sync views cam).projection.fov = v.fov) := by
  constructor
  · intro h
    rw [xr_camera_head_sync, h]
  · intro v h
    rw [xr_camera_head_sync, h]
    exact ⟨rfl, rfl, rfl⟩

/-- A concrete view sample used in the witnesses below. -/
def sampleView : View :=
  { pose := { orientation := ⟨0, 0, 0, 1⟩, position := ⟨1, 2, 3⟩ },
    fov := ⟨0, 0, 0, 0⟩ }

/-- C9 (witness): with an empty view array the left-eye camera is unchanged;
with a one-view array its pose and fov are copied from that view. -/
theorem head_sync_lookup_inst :
    xr_camera_head_sync [] (xr_camera_bundle_new .Left) = xr_camera_bundle_new .Left ∧
    (xr_camera_head_sync [sampleView]
        (xr_camera_bundle_new .Left)).transform.translation = V3.mk 1 2 3 := by
  constructor
  · exact (head_sync_lookup [] (xr_camera_bundle_new .Left)).1 rfl
  · exact ((head_sync_lookup [sampleView] (xr_camera_bundle_new .Left)).2 sampleView rfl).2.1

/-! ## Claim C10 -/

/-- Iterated head sync over a sequence of frames' view arrays. -/
def head_sync_frames (frames : List (List View)) (cam : XrCameraState) : XrCameraState :=
  frames.foldl (fun c views => xr_camera_head_sync views c) cam

theorem head_sync_preserves_clip (views : List View) (cam : XrCameraState) :
    (xr_camera_head_sync views cam).projection.near = cam.projection.near ∧
    (xr_camera_head_sync views cam).projection.far = cam.projection.far ∧
    (xr_camera_head_sync views cam).transform.scale = cam.transform.scale := by
  rw [xr_camera_head_sync]
  cases views.get? cam.eye.index with
  | none => exact ⟨rfl, rfl, rfl⟩
  | some v => exact ⟨rfl, rfl, rfl⟩

theorem head_sync_frames_clip (frames : List (List View)) :
    ∀ cam : XrCameraState,
      (head_sync_frames frames cam).projection.near = cam.projection.near ∧
      (head_sync_frames frames cam).projection.far = cam.projection.far := by
  induction frames with
  | nil => exact fun cam => ⟨rfl, rfl⟩
  | cons views rest ih =>
    intro cam
    have hstep := head_sync_preserves_clip views cam
    have hrest := ih (xr_camera_head_sync views cam)
    rw [head_sync_frames, List.foldl_cons] at *
    exact ⟨hrest.1.trans hstep.1, hrest.2.trans hstep.2.1⟩

/-- C10: the head-sync pass writes only the camera's rotation, translation
and projection fov — the projection's near and far (and the transform scale)
are returned unchanged — so across any sequence of synced frames a camera
spawned by `XrCameraBundle::new` keeps its construction-time clip distances
`near = 0.1`, `far = 1000`. -/
theorem head_sync_clip_lifetime :
    (∀ (views : List View) (cam : XrCameraState),
      (xr_camera_head_sync views cam).projection.near = cam.projection.near ∧
      (xr_camera_head_sync views cam).projection.far = cam.projection.far ∧
      (xr_camera_head_sync views cam).transform.scale = cam.transform.scale) ∧
    (∀ (frames : List (List View)) (eye : Eye),
      (head_sync_frames frames (xr_camera_bundle_new eye)).projection.near = 0.1 ∧
      (head_sync_frames frames (xr_camera_bundle_new eye)).projection.far = 1000) := by
  refine ⟨head_sync_preserves_clip, fun frames eye => ?_⟩
  have h := head_sync_frames_clip frames (xr_camera_bundle_new eye)
  exact ⟨h.1, h.2⟩

/-- C10 (witness): after one synced frame with a concrete view, the left-eye
camera still has `near = 0.1` and `far = 1000`. -/
theorem head_sync_clip_lifetime_inst :
    (head_sync_frames [[sampleView]] (xr_camera_bundle_new .Left)).projection.near = 0.1 ∧
    (head_sync_frames [[sampleView]] (xr_camera_bundle_new .Left)).projection.far = 1000 :=
  head_sync_clip_lifetime.2 _ .Left

end BevyOxr
